import Mathlib

/-!
Verification development for the JDKSAvdeccArduino core: the WizNet W5100
raw-socket layer (src/JDKSAvdeccWizNetIO.cpp together with
src/include/JDKSAvdeccMCU/RawSocketWizNet.hpp) and the AVDECC proxy protocol
(APPDU) message codec (src/include/JDKSAvdeccMCU_App.hpp).

The W5100 Ethernet controller is an external collaborator of the repository;
it is modelled as explicit state (interrupt register, RX read pointer, RX
memory) plus observable effect records, so that each controller-facing
routine becomes a pure function from controller state to its effects.
-/

/-- Socket interrupt register bit SnIR::RECV of the W5100 controller. -/
def SnIR_RECV : Nat := 4

/-- Socket interrupt register bit SnIR::TIMEOUT of the W5100 controller. -/
def SnIR_TIMEOUT : Nat := 8

/-- Socket interrupt register bit SnIR::SEND_OK of the W5100 controller. -/
def SnIR_SEND_OK : Nat := 16

/-- Socket mode register value SnMR::MACRAW of the W5100 controller. -/
def SnMR_MACRAW : Nat := 4

/-- Controller state observed by WizNetIO::ReceiveRawNet: the socket-0
interrupt register, the RX read pointer (a uint16), and the controller RX
memory as a function from a 16-bit address to an octet (reads are taken
mod 2^16 on the address and mod 2^8 on the value, matching the uint16_t
pointer arithmetic and uint8_t buffers of the source). -/
structure WizState where
  snIR : Nat
  snRX_RD : Nat
  mem : Nat → Nat

/-- Observable effect of one WizNetIO::ReceiveRawNet call: the returned
uint16, the value written back to the RX read pointer register, whether the
Sock_RECV command was issued, and the octets copied into the caller's buffer
(`none` when the caller's buffer was not written). -/
structure RecvResult where
  ret : Nat
  newRX_RD : Nat
  recvIssued : Bool
  copied : Option (List Nat)
deriving DecidableEq

/-- Big-endian 16-bit length value read at the RX read pointer, from
src/JDKSAvdeccWizNetIO.cpp lines 30-34: two octets head[0], head[1] are read
at the pointer and combined as (head[0] shl 8) + head[1]. -/
def rxHeadValue (s : WizState) : Nat :=
  (s.mem (s.snRX_RD % 65536) % 256) * 256 + s.mem ((s.snRX_RD + 1) % 65536) % 256

/-- The data_len computed by ReceiveRawNet line 34: the 16-bit head value
minus 2, in uint16 arithmetic (so values 0 and 1 wrap to 65534 and 65535). -/
def rxDataLen (s : WizState) : Nat :=
  (rxHeadValue s + 65534) % 65536

/-- The n octets W5100.read_data delivers starting two past the RX read
pointer (src/JDKSAvdeccWizNetIO.cpp line 37). -/
def rxWindow (s : WizState) (n : Nat) : List Nat :=
  (List.range n).map fun i => s.mem (((s.snRX_RD + 2) % 65536 + i) % 65536) % 256

/-- WizNetIO::ReceiveRawNet, src/JDKSAvdeccWizNetIO.cpp lines 25-45.
If the RECV interrupt bit is set: read ptr and the 2-octet head, compute
data_len = head - 2 (uint16), copy data_len octets into the caller's buffer
when data_len fits max_len, advance ptr by 2 + data_len (uint16), write it to
the RX read pointer register and issue Sock_RECV.  The function returns
data_len when it fits max_len and 0 otherwise; when the RECV bit is clear it
returns 0 having touched nothing. -/
def receiveRawNet (s : WizState) (max_len : Nat) : RecvResult :=
  if s.snIR &&& SnIR_RECV ≠ 0 then
    { ret := if rxDataLen s ≤ max_len then rxDataLen s else 0
      newRX_RD := ((s.snRX_RD + 2) % 65536 + rxDataLen s) % 65536
      recvIssued := true
      copied := if rxDataLen s ≤ max_len then some (rxWindow s (rxDataLen s)) else none }
  else
    { ret := 0, newRX_RD := s.snRX_RD, recvIssued := false, copied := none }

/-- Outcome of the SEND_MAC polling loop of WizNetIO::SendRawNet:
`ret` is the value the bool function returns (`none` models the control path
that falls off the end of the function without a return statement), and
`irWritten` is the value written to the SnIR register on exit. -/
structure SendResult where
  ret : Option Bool
  irWritten : Nat
deriving DecidableEq

/-- The polling loop of WizNetIO::SendRawNet, src/JDKSAvdeccWizNetIO.cpp
lines 54-64, over the sequence of successive SnIR register readings (the
loop reads SnIR once in the while condition and once more in the timeout
test each iteration).  Result is `none` when the supplied reading sequence
is exhausted with the loop still running.  On a SEND_OK reading the code
writes SEND_OK to SnIR and then falls off the end of the bool function, so
the returned value is modelled as `none`; on a TIMEOUT reading it writes
SEND_OK|TIMEOUT and returns false (`return 0`). -/
def sendRawNetPoll : List Nat → Option SendResult
  | [] => none
  | [ir1] =>
    if ir1 &&& SnIR_SEND_OK = SnIR_SEND_OK then
      some { ret := none, irWritten := SnIR_SEND_OK }
    else
      none
  | ir1 :: ir2 :: rest2 =>
    if ir1 &&& SnIR_SEND_OK = SnIR_SEND_OK then
      some { ret := none, irWritten := SnIR_SEND_OK }
    else if ir2 &&& SnIR_TIMEOUT ≠ 0 then
      some { ret := some false, irWritten := SnIR_SEND_OK ||| SnIR_TIMEOUT }
    else
      sendRawNetPoll rest2

/-- An EUI-48 address: six octets. -/
structure Eui48 where
  a0 : Nat
  a1 : Nat
  a2 : Nat
  a3 : Nat
  a4 : Nat
  a5 : Nat
deriving DecidableEq

/-- The six octets of an Eui48, in wire order. -/
def Eui48.toList (e : Eui48) : List Nat :=
  [e.a0, e.a1, e.a2, e.a3, e.a4, e.a5]

/-- All six fields are octet values. -/
def Eui48.octetsOk (e : Eui48) : Prop :=
  e.a0 < 256 ∧ e.a1 < 256 ∧ e.a2 < 256 ∧ e.a3 < 256 ∧ e.a4 < 256 ∧ e.a5 < 256

/-- An EUI-64 identifier: eight octets. -/
structure Eui64 where
  b0 : Nat
  b1 : Nat
  b2 : Nat
  b3 : Nat
  b4 : Nat
  b5 : Nat
  b6 : Nat
  b7 : Nat
deriving DecidableEq

/-- The eight octets of an Eui64, in wire order. -/
def Eui64.toList (e : Eui64) : List Nat :=
  [e.b0, e.b1, e.b2, e.b3, e.b4, e.b5, e.b6, e.b7]

/-- All eight fields are octet values. -/
def Eui64.octetsOk (e : Eui64) : Prop :=
  e.b0 < 256 ∧ e.b1 < 256 ∧ e.b2 < 256 ∧ e.b3 < 256 ∧
    e.b4 < 256 ∧ e.b5 < 256 ∧ e.b6 < 256 ∧ e.b7 < 256

/-- One call made against the W5100 driver during socket setup. -/
inductive W5100Call where
  | initDevice : W5100Call
  | setMACAddress : Eui48 → W5100Call
  | openSocket : Nat → Nat → Nat → Nat → W5100Call
deriving DecidableEq

/-- WizNetIO::Initialize, src/JDKSAvdeccWizNetIO.cpp lines 17-22, as the
sequence of driver calls it performs: W5100.init(), then
W5100.setMACAddress(m_mac_address), then socket(0, SnMR::MACRAW, 0x22f0, 0). -/
def wizNetInitCalls (mac : Eui48) : List W5100Call :=
  [W5100Call.initDevice, W5100Call.setMACAddress mac,
   W5100Call.openSocket 0 SnMR_MACRAW 0x22f0 0]

/-- Modelled from the spec: the body of the static member declared at
src/include/JDKSAvdeccMCU/RawSocketWizNet.hpp line 70 (taking a MAC address
and an etherType whose declared default is 0x22f0) is not under src; per
spec section 4.1 it resets the controller, programs the source MAC, and
opens socket 0 in MAC-RAW mode with the given Ethertype filter. -/
def rawSocketWizNetInitCalls (mac : Eui48) (etherType : Nat) : List W5100Call :=
  [W5100Call.initDevice, W5100Call.setMACAddress mac,
   W5100Call.openSocket 0 SnMR_MACRAW etherType 0]

/-- The data members of RawSocketWizNet,
src/include/JDKSAvdeccMCU/RawSocketWizNet.hpp lines 73-76. -/
structure RawSockWizState where
  m_mac_address : Eui48
  m_ethertype : Nat
  m_multicast : Eui48
deriving DecidableEq

/-- RawSocketWizNet::joinMulticast, src/include/JDKSAvdeccMCU/RawSocketWizNet.hpp
line 66: the body assigns m_multicast = multicast_mac and then falls off the
end of a bool-returning function, so the returned value is modelled as
`none`. -/
def joinMulticast (s : RawSockWizState) (m : Eui48) : RawSockWizState × Option Bool :=
  ({ s with m_multicast := m }, none)

/-- JDKSAVDECC_APPDU_HEADER_LEN: the APPDU header is 12 octets
(spec section 6; the constant itself lives in the jdksavdecc-c library,
outside src). -/
def appduHeaderLen : Nat := 12

/-- JDKSAVDECC_APPDU_MAX_PAYLOAD_LENGTH: the maximum APPDU payload length,
1500 octets (spec section 6 recommends MAX_PAYLOAD at least 1500; the
constant itself lives in the jdksavdecc-c library, outside src). -/
def appduMaxPayloadLength : Nat := 1500

/-- AppMessageParser::max_appdu_message_size,
src/include/JDKSAvdeccMCU_App.hpp lines 180-181. -/
def max_appdu_message_size : Nat := appduHeaderLen + appduMaxPayloadLength

/-- An APPDU message (spec section 3): version, message_type, the 16-bit
payload_length, the 6-octet address field, the 2 reserved octets and the
payload.  This models the jdksavdecc_fullappdu held by AppMessage
(src/include/JDKSAvdeccMCU_App.hpp line 164). -/
structure AppMessage where
  version : Nat
  message_type : Nat
  payload_length : Nat
  address : List Nat
  reserved : List Nat
  payload : List Nat
deriving DecidableEq

/-- Modelled from the spec: the body of AppMessage::setNOP is not under src
(only its declaration in JDKSAvdeccMCU_App.hpp); per spec sections 3 and 8
(scenario S1) a NOP has version 0, message_type 0, zero payload_length, an
all-zero address and zero reserved octets. -/
def AppMessage.setNOP : AppMessage :=
  { version := 0, message_type := 0, payload_length := 0,
    address := [0, 0, 0, 0, 0, 0], reserved := [0, 0], payload := [] }

/-- Modelled from the spec: the body of AppMessage::setEntityIdRequest is not
under src; per spec sections 3 and 8 (scenario S2) it sets message_type 1,
address = apc_primary_mac and an 8-octet entity_id payload. -/
def AppMessage.setEntityIdRequest (mac : Eui48) (eid : Eui64) : AppMessage :=
  { version := 0, message_type := 1, payload_length := 8,
    address := mac.toList, reserved := [0, 0], payload := eid.toList }

/-- Modelled from the spec: the body of AppMessage::setEntityIdResponse is
not under src; same layout as setEntityIdRequest with message_type 2. -/
def AppMessage.setEntityIdResponse (mac : Eui48) (eid : Eui64) : AppMessage :=
  { version := 0, message_type := 2, payload_length := 8,
    address := mac.toList, reserved := [0, 0], payload := eid.toList }

/-- Modelled from the spec: the body of AppMessage::setLinkUp is not under
src; per spec sections 3 and 8 (scenario S3) it sets message_type 3,
address = network_port_mac and an empty payload. -/
def AppMessage.setLinkUp (mac : Eui48) : AppMessage :=
  { version := 0, message_type := 3, payload_length := 0,
    address := mac.toList, reserved := [0, 0], payload := [] }

/-- Modelled from the spec: the body of AppMessage::setLinkDown is not under
src; message_type 4, address = network_port_mac, empty payload. -/
def AppMessage.setLinkDown (mac : Eui48) : AppMessage :=
  { version := 0, message_type := 4, payload_length := 0,
    address := mac.toList, reserved := [0, 0], payload := [] }

/-- Modelled from the spec: the body of AppMessage::setAvdeccFromAps is not
under src; message_type 5, the encapsulated AVDECC frame as payload.  The
spec leaves the address field meaning to Annex C; all-zero denotes
unspecified per spec section 3. -/
def AppMessage.setAvdeccFromAps (frame : List Nat) : AppMessage :=
  { version := 0, message_type := 5, payload_length := frame.length,
    address := [0, 0, 0, 0, 0, 0], reserved := [0, 0], payload := frame }

/-- Modelled from the spec: the body of AppMessage::setAvdeccFromApc is not
under src; message_type 6, the encapsulated AVDECC frame as payload. -/
def AppMessage.setAvdeccFromApc (frame : List Nat) : AppMessage :=
  { version := 0, message_type := 6, payload_length := frame.length,
    address := [0, 0, 0, 0, 0, 0], reserved := [0, 0], payload := frame }

/-- Modelled from the spec: the body of AppMessage::setVendor is not under
src; message_type 0xFF, address = vendor_message_type code, vendor payload. -/
def AppMessage.setVendor (vendor_message_type : Eui48) (pay : List Nat) : AppMessage :=
  { version := 0, message_type := 255, payload_length := pay.length,
    address := vendor_message_type.toList, reserved := [0, 0], payload := pay }

/-- Modelled from the spec: AppMessage::serialize writes the 12-octet header
(version, message_type, big-endian payload_length, address, reserved)
followed by the payload (spec sections 4.3 and 6). -/
def serialize (m : AppMessage) : List Nat :=
  [m.version, m.message_type, m.payload_length / 256, m.payload_length % 256]
    ++ m.address ++ m.reserved ++ m.payload

/-- The data members of AppMessageParser,
src/include/JDKSAvdeccMCU_App.hpp lines 241-244: the count of payload octets
still expected, the error count, the 12-octet header accumulation buffer
(FixedBufferWithSize modelled as the list of accumulated octets) and the
in-progress message. -/
structure AppMessageParser where
  m_octets_left_in_payload : Nat
  m_error_count : Nat
  m_header_buffer : List Nat
  m_current_message : AppMessage
deriving DecidableEq

/-- AppMessageParser::clear, src/include/JDKSAvdeccMCU_App.hpp lines 195-200:
sets the header buffer length to 0, the error count to 0 and the octets left
in payload to 0 (the current message is not touched). -/
def AppMessageParser.clear (p : AppMessageParser) : AppMessageParser :=
  { p with m_header_buffer := [], m_error_count := 0, m_octets_left_in_payload := 0 }

/-- AppMessageParser::getErrorCount, src/include/JDKSAvdeccMCU_App.hpp
line 214. -/
def AppMessageParser.getErrorCount (p : AppMessageParser) : Nat :=
  p.m_error_count

/-- A parser in HEADER phase with an empty buffer: error count ec and
current message cm.  AppMessageParser() starts this way with ec = 0, and
clear() returns to it. -/
def baseParser (ec : Nat) (cm : AppMessage) : AppMessageParser :=
  { m_octets_left_in_payload := 0, m_error_count := ec,
    m_header_buffer := [], m_current_message := cm }

/-- The recognized APPDU message_type values (spec section 3):
NOP 0, ENTITY_ID_REQUEST 1, ENTITY_ID_RESPONSE 2, LINK_UP 3, LINK_DOWN 4,
AVDECC_FROM_APS 5, AVDECC_FROM_APC 6, VENDOR 0xFF. -/
def validMessageType (mt : Nat) : Bool :=
  mt == 0 || mt == 1 || mt == 2 || mt == 3 || mt == 4 || mt == 5 || mt == 6 || mt == 255

/-- The header checks of AppMessageParser::validateHeader on the four
determining fields (spec section 4.4): version must be 0, message_type must
be recognized, and the big-endian payload_length must fit MAX_PAYLOAD. -/
def headerFieldsOk (v mt hi lo : Nat) : Bool :=
  decide (v = 0) && validMessageType mt && decide (hi * 256 + lo ≤ appduMaxPayloadLength)

/-- Whether a 12-octet header buffer passes validateHeader's checks. -/
def headerOk : List Nat → Bool
  | [v, mt, hi, lo, _, _, _, _, _, _, _, _] => headerFieldsOk v mt hi lo
  | _ => false

/-- Modelled from the spec: the body of AppMessageParser::validateHeader is
not under src (only its declaration at JDKSAvdeccMCU_App.hpp line 228).  Per
spec section 4.4: on a rejected header (bad version, unrecognized
message_type, or oversize payload_length) increment the error count, drop
the first octet of the header buffer shifting the rest left, and stay in
HEADER phase; on an accepted header build the message from the header
fields, count a soft error when the reserved octets are nonzero, and either
yield the message at once (payload_length 0) or move to PAYLOAD phase
expecting payload_length octets. -/
def validateHeader (p : AppMessageParser) : AppMessageParser × Option AppMessage :=
  match p.m_header_buffer with
  | [v, mt, hi, lo, a0, a1, a2, a3, a4, a5, r0, r1] =>
    if headerFieldsOk v mt hi lo then
      let pl := hi * 256 + lo
      let soft := if r0 = 0 ∧ r1 = 0 then 0 else 1
      let msg : AppMessage :=
        { version := v, message_type := mt, payload_length := pl,
          address := [a0, a1, a2, a3, a4, a5], reserved := [r0, r1], payload := [] }
      if pl = 0 then
        ({ m_octets_left_in_payload := 0, m_error_count := p.m_error_count + soft,
           m_header_buffer := [], m_current_message := msg }, some msg)
      else
        ({ m_octets_left_in_payload := pl, m_error_count := p.m_error_count + soft,
           m_header_buffer := [], m_current_message := msg }, none)
    else
      ({ p with m_header_buffer := p.m_header_buffer.tail,
                m_error_count := p.m_error_count + 1 }, none)
  | _ =>
    ({ p with m_header_buffer := p.m_header_buffer.tail,
              m_error_count := p.m_error_count + 1 }, none)

/-- Modelled from the spec: the body of AppMessageParser::parsePayload is not
under src; per spec section 4.4 each consumed octet is appended to the
in-progress message's payload, and when the expected count reaches zero the
completed message is yielded and the parser returns to HEADER phase. -/
def parsePayload (p : AppMessageParser) (octet : Nat) : AppMessageParser × Option AppMessage :=
  let msg := { p.m_current_message with
               payload := p.m_current_message.payload ++ [octet] }
  if p.m_octets_left_in_payload - 1 = 0 then
    ({ p with m_octets_left_in_payload := 0, m_current_message := msg }, some msg)
  else
    ({ p with m_octets_left_in_payload := p.m_octets_left_in_payload - 1,
              m_current_message := msg }, none)

/-- Modelled from the spec: the body of AppMessageParser::parseHeader is not
under src; per spec section 4.4 octets accumulate into the header buffer
until HEADER_LEN octets are collected, and then the header is validated. -/
def parseHeader (p : AppMessageParser) (octet : Nat) : AppMessageParser × Option AppMessage :=
  let hb := p.m_header_buffer ++ [octet]
  if hb.length < appduHeaderLen then
    ({ p with m_header_buffer := hb }, none)
  else
    validateHeader { p with m_header_buffer := hb }

/-- Modelled from the spec: the body of AppMessageParser::parse is not under
src (only its declaration at JDKSAvdeccMCU_App.hpp line 212); it consumes
one octet, in PAYLOAD phase (payload octets still expected) through
parsePayload and otherwise through parseHeader, and returns the completed
message when one finishes. -/
def parse (p : AppMessageParser) (octet : Nat) : AppMessageParser × Option AppMessage :=
  if p.m_octets_left_in_payload > 0 then parsePayload p octet else parseHeader p octet

/-- Feed a whole octet list one octet at a time, collecting every completed
message in order. -/
def feedAll (p : AppMessageParser) : List Nat → AppMessageParser × List AppMessage
  | [] => (p, [])
  | o :: rest =>
    let s1 := parse p o
    let s2 := feedAll s1.1 rest
    (s2.1, s1.2.toList ++ s2.2)

/-- Every octet of the list is an octet value. -/
def listOctetsOk (l : List Nat) : Prop := ∀ x ∈ l, x < 256

/-- An AppMessage produced by one of the eight AppMessage constructors with
well-formed arguments (octet-valued fields, payload within MAX_PAYLOAD). -/
def ValidlyConstructed (m : AppMessage) : Prop :=
  m = AppMessage.setNOP
  ∨ (∃ mac eid, Eui48.octetsOk mac ∧ Eui64.octetsOk eid ∧
      m = AppMessage.setEntityIdRequest mac eid)
  ∨ (∃ mac eid, Eui48.octetsOk mac ∧ Eui64.octetsOk eid ∧
      m = AppMessage.setEntityIdResponse mac eid)
  ∨ (∃ mac, Eui48.octetsOk mac ∧ m = AppMessage.setLinkUp mac)
  ∨ (∃ mac, Eui48.octetsOk mac ∧ m = AppMessage.setLinkDown mac)
  ∨ (∃ f, listOctetsOk f ∧ f.length ≤ appduMaxPayloadLength ∧
      m = AppMessage.setAvdeccFromAps f)
  ∨ (∃ f, listOctetsOk f ∧ f.length ≤ appduMaxPayloadLength ∧
      m = AppMessage.setAvdeccFromApc f)
  ∨ (∃ vmt pay, Eui48.octetsOk vmt ∧ listOctetsOk pay ∧
      pay.length ≤ appduMaxPayloadLength ∧ m = AppMessage.setVendor vmt pay)

/-! Helper lemmas about the receive path, shared by several results below. -/

/-- When the RECV interrupt bit is clear, ReceiveRawNet performs no writes and
returns 0. -/
theorem recv_not_ready (s : WizState) (max_len : Nat)
    (h : s.snIR &&& SnIR_RECV = 0) :
    receiveRawNet s max_len = { ret := 0, newRX_RD := s.snRX_RD,
                                recvIssued := false, copied := none } := by
  simp [receiveRawNet, h]

/-- When a frame is pending and data_len fits the caller's buffer,
ReceiveRawNet copies the data_len octets, advances the read pointer by the
head value (mod 2^16), issues RECV and returns data_len. -/
theorem recv_copy (s : WizState) (max_len : Nat)
    (h1 : s.snIR &&& SnIR_RECV ≠ 0) (h2 : rxDataLen s ≤ max_len) :
    receiveRawNet s max_len
      = { ret := rxDataLen s, newRX_RD := (s.snRX_RD + rxHeadValue s) % 65536,
          recvIssued := true, copied := some (rxWindow s (rxDataLen s)) } := by
  have hmod : ((s.snRX_RD + 2) % 65536 + rxDataLen s) % 65536
      = (s.snRX_RD + rxHeadValue s) % 65536 := by
    unfold rxDataLen
    omega
  simp [receiveRawNet, h1, h2, hmod]

/-- When a frame is pending and data_len exceeds the caller's buffer,
ReceiveRawNet copies nothing, still advances the read pointer by the head
value (mod 2^16), issues RECV and returns 0. -/
theorem recv_skip (s : WizState) (max_len : Nat)
    (h1 : s.snIR &&& SnIR_RECV ≠ 0) (h2 : max_len < rxDataLen s) :
    receiveRawNet s max_len
      = { ret := 0, newRX_RD := (s.snRX_RD + rxHeadValue s) % 65536,
          recvIssued := true, copied := none } := by
  have hle : ¬ rxDataLen s ≤ max_len := by omega
  have hmod : ((s.snRX_RD + 2) % 65536 + rxDataLen s) % 65536
      = (s.snRX_RD + rxHeadValue s) % 65536 := by
    unfold rxDataLen
    omega
  simp [receiveRawNet, h1, hle, hmod]

/-- The copied window has exactly n octets. -/
theorem rxWindow_length (s : WizState) (n : Nat) : (rxWindow s n).length = n := by
  simp [rxWindow]

/-- The SEND_MAC polling loop never produces a true return, whatever the
sequence of SnIR readings: the only return statement in the loop is the
`return 0` of the TIMEOUT branch. -/
theorem sendPoll_no_true :
    ∀ (n : Nat) (irs : List Nat), irs.length ≤ n →
      ∀ r, sendRawNetPoll irs = some r → r.ret ≠ some true := by
  intro n
  induction n with
  | zero =>
    intro irs hlen r h
    cases irs with
    | nil => simp [sendRawNetPoll] at h
    | cons a t => simp at hlen
  | succ n ih =>
    intro irs hlen r h
    rcases irs with _ | ⟨ir1, _ | ⟨ir2, rest2⟩⟩
    · simp [sendRawNetPoll] at h
    · by_cases h1 : ir1 &&& SnIR_SEND_OK = SnIR_SEND_OK
      · simp only [sendRawNetPoll, if_pos h1] at h
        cases h
        simp
      · simp only [sendRawNetPoll, if_neg h1] at h
        exact absurd h (by simp)
    · by_cases h1 : ir1 &&& SnIR_SEND_OK = SnIR_SEND_OK
      · simp only [sendRawNetPoll, if_pos h1] at h
        cases h
        simp
      · by_cases h2 : ir2 &&& SnIR_TIMEOUT ≠ 0
        · simp only [sendRawNetPoll, if_neg h1, if_pos h2] at h
          cases h
          simp
        · simp only [sendRawNetPoll, if_neg h1, if_neg h2] at h
          refine ih rest2 ?_ r h
          simp at hlen
          omega

/-- C2: the claim says the transmit poll returns true when SEND_OK is
observed and false (after clearing SEND_OK and TIMEOUT) when TIMEOUT is
observed first, and returns no other value in any run.  Against the code the
TIMEOUT half holds, but on SEND_OK the bool function writes SEND_OK to SnIR
and falls off its end without returning a value (modelled as `none`): the
loop never returns true in any run. -/
theorem c2_send_never_true :
    (∀ irs r, sendRawNetPoll irs = some r → r.ret ≠ some true) ∧
    sendRawNetPoll [SnIR_SEND_OK] = some { ret := none, irWritten := SnIR_SEND_OK } ∧
    sendRawNetPoll [0, SnIR_TIMEOUT]
      = some { ret := some false, irWritten := SnIR_SEND_OK ||| SnIR_TIMEOUT } :=
  ⟨fun irs r h => sendPoll_no_true irs.length irs le_rfl r h, by decide, by decide⟩

/-- Witness for c2_send_never_true at the concrete reading sequence
first-poll 0, second-poll TIMEOUT. -/
theorem c2_send_never_true_witness :
    sendRawNetPoll [0, SnIR_TIMEOUT] = some { ret := some false, irWritten := 24 } ∧
    ({ ret := some false, irWritten := 24 } : SendResult).ret ≠ some true :=
  ⟨by decide, c2_send_never_true.1 [0, SnIR_TIMEOUT] _ (by decide)⟩

/-- C3: when the RECV flag is set and the decoded data length fits the
caller's buffer, ReceiveRawNet copies exactly data_len octets into the
caller's buffer, advances the RX read pointer by exactly the prefix value
(the 2 prefix octets plus data_len, in uint16 arithmetic), issues the RECV
command and returns the received length. -/
theorem c3_receive_success (s : WizState) (max_len : Nat)
    (hrecv : s.snIR &&& SnIR_RECV ≠ 0) (hlen : rxDataLen s ≤ max_len) :
    (receiveRawNet s max_len).ret = rxDataLen s ∧
    (receiveRawNet s max_len).copied = some (rxWindow s (rxDataLen s)) ∧
    (rxWindow s (rxDataLen s)).length = rxDataLen s ∧
    (receiveRawNet s max_len).newRX_RD = (s.snRX_RD + rxHeadValue s) % 65536 ∧
    (receiveRawNet s max_len).recvIssued = true := by
  rw [recv_copy s max_len hrecv hlen]
  exact ⟨rfl, rfl, rxWindow_length s _, rfl, rfl⟩

/-- Witness for c3_receive_success: head value 5 so data_len 3, buffer
capacity 10; three octets of value 9 are copied and 3 is returned. -/
theorem c3_receive_success_witness :
    ((4 : Nat) &&& SnIR_RECV ≠ 0) ∧
    rxDataLen ⟨4, 0, fun i => if i = 0 then 0 else if i = 1 then 5 else 9⟩ ≤ 10 ∧
    (receiveRawNet ⟨4, 0, fun i => if i = 0 then 0 else if i = 1 then 5 else 9⟩ 10).ret = 3 :=
  ⟨by decide, by decide, by
    rw [(c3_receive_success ⟨4, 0, fun i => if i = 0 then 0 else if i = 1 then 5 else 9⟩
        10 (by decide) (by decide)).1]
    decide⟩

/-- C4 counterexample: with a length prefix of 0 (malformed, prefix < 2) and
a caller capacity of 65535, the uint16 wrap makes data_len 65534, which fits
the capacity: the code then copies into the caller's buffer and returns
65534, not 0, contradicting the claim that every prefix < 2 frame is skipped
with nothing copied and a 0 return. -/
theorem c4_prefix_lt_two_counterexample :
    rxHeadValue ⟨4, 0, fun _ => 0⟩ < 2 ∧
    (receiveRawNet ⟨4, 0, fun _ => 0⟩ 65535).ret = 65534 ∧
    (receiveRawNet ⟨4, 0, fun _ => 0⟩ 65535).copied.isSome = true :=
  ⟨by decide, by decide, by rfl⟩

/-- C4 (amended): whenever the decoded data length (the prefix minus 2 in
uint16 arithmetic, so a malformed prefix < 2 wraps to 65534 or 65535)
exceeds the caller's buffer capacity, ReceiveRawNet copies nothing, still
advances the RX read pointer by exactly the prefix value mod 2^16, issues
the RECV command and returns 0. -/
theorem c4_oversize_skip (s : WizState) (max_len : Nat)
    (hrecv : s.snIR &&& SnIR_RECV ≠ 0) (hbig : max_len < rxDataLen s) :
    (receiveRawNet s max_len).copied = none ∧
    (receiveRawNet s max_len).ret = 0 ∧
    (receiveRawNet s max_len).newRX_RD = (s.snRX_RD + rxHeadValue s) % 65536 ∧
    (receiveRawNet s max_len).recvIssued = true := by
  rw [recv_skip s max_len hrecv hbig]
  exact ⟨rfl, rfl, rfl, rfl⟩

/-- Witness for c4_oversize_skip: scenario S6, a 2000-octet frame (prefix
2002) offered to a 1522-capacity buffer: nothing is returned and the read
pointer advances by 2002. -/
theorem c4_oversize_skip_witness :
    1522 < rxDataLen ⟨4, 0, fun i => if i = 0 then 7 else if i = 1 then 210 else 0⟩ ∧
    (receiveRawNet ⟨4, 0, fun i => if i = 0 then 7 else if i = 1 then 210 else 0⟩ 1522).ret = 0 ∧
    (receiveRawNet ⟨4, 0, fun i => if i = 0 then 7 else if i = 1 then 210 else 0⟩ 1522).newRX_RD = 2002 :=
  ⟨by decide,
   (c4_oversize_skip ⟨4, 0, fun i => if i = 0 then 7 else if i = 1 then 210 else 0⟩
      1522 (by decide) (by decide)).2.1,
   by
    rw [(c4_oversize_skip ⟨4, 0, fun i => if i = 0 then 7 else if i = 1 then 210 else 0⟩
        1522 (by decide) (by decide)).2.2.1]
    decide⟩

/-- C5: for every MAC address and Ethertype, the modelled
RawSocketWizNet initialization resets the controller first, programs the
given source MAC, and opens socket 0 in MAC-RAW mode with the given
Ethertype as the filter and no other socket configuration; the
WizNetIO::Initialize body found in src performs exactly this sequence at the
declared default Ethertype 0x22f0. -/
theorem c5_init_opens_macraw (mac : Eui48) (et : Nat) :
    (rawSocketWizNetInitCalls mac et).head? = some W5100Call.initDevice ∧
    W5100Call.setMACAddress mac ∈ rawSocketWizNetInitCalls mac et ∧
    W5100Call.openSocket 0 SnMR_MACRAW et 0 ∈ rawSocketWizNetInitCalls mac et ∧
    (∀ sk md pt fl, W5100Call.openSocket sk md pt fl ∈ rawSocketWizNetInitCalls mac et →
       sk = 0 ∧ md = SnMR_MACRAW ∧ pt = et ∧ fl = 0) ∧
    wizNetInitCalls mac = rawSocketWizNetInitCalls mac 0x22f0 := by
  refine ⟨rfl, by simp [rawSocketWizNetInitCalls], by simp [rawSocketWizNetInitCalls], ?_, rfl⟩
  intro sk md pt fl h
  simpa [rawSocketWizNetInitCalls] using h

/-- Witness for c5_init_opens_macraw at a concrete MAC and the non-default
Ethertype 0x86dd. -/
theorem c5_init_opens_macraw_witness :
    W5100Call.openSocket 0 SnMR_MACRAW 0x86dd 0
      ∈ rawSocketWizNetInitCalls ⟨1, 2, 3, 4, 5, 6⟩ 0x86dd ∧
    ((0 : Nat) = 0 ∧ SnMR_MACRAW = SnMR_MACRAW ∧ (0x86dd : Nat) = 0x86dd ∧ (0 : Nat) = 0) :=
  ⟨(c5_init_opens_macraw ⟨1, 2, 3, 4, 5, 6⟩ 0x86dd).2.2.1,
   (c5_init_opens_macraw ⟨1, 2, 3, 4, 5, 6⟩ 0x86dd).2.2.2.1 0 SnMR_MACRAW 0x86dd 0 (by decide)⟩

/-- C7: when the RECV interrupt flag is clear, ReceiveRawNet returns 0 and
performs no writes: the caller's buffer is untouched, the RX read pointer
is unchanged and no command is issued. -/
theorem c7_receive_idle (s : WizState) (max_len : Nat)
    (h : s.snIR &&& SnIR_RECV = 0) :
    receiveRawNet s max_len
      = { ret := 0, newRX_RD := s.snRX_RD, recvIssued := false, copied := none } :=
  recv_not_ready s max_len h

/-- Witness for c7_receive_idle at a concrete idle controller state. -/
theorem c7_receive_idle_witness :
    ((0 : Nat) &&& SnIR_RECV = 0) ∧
    receiveRawNet ⟨0, 7, fun _ => 3⟩ 5
      = { ret := 0, newRX_RD := 7, recvIssued := false, copied := none } :=
  ⟨by decide, c7_receive_idle ⟨0, 7, fun _ => 3⟩ 5 (by decide)⟩

/-- C9: the receive return value conflates distinct outcomes: 0 is returned
when no frame is pending, when a pending frame is skipped as oversized
(still advancing the pointer and issuing RECV), and when a zero-length
frame (prefix = 2) is successfully consumed (pointer advanced by 2, RECV
issued, empty copy); any nonzero return equals the number of octets copied
into the caller's buffer. -/
theorem c9_return_conflation (s : WizState) (max_len : Nat) :
    (s.snIR &&& SnIR_RECV = 0 →
      (receiveRawNet s max_len).ret = 0 ∧ (receiveRawNet s max_len).recvIssued = false) ∧
    (s.snIR &&& SnIR_RECV ≠ 0 → max_len < rxDataLen s →
      (receiveRawNet s max_len).ret = 0 ∧ (receiveRawNet s max_len).recvIssued = true) ∧
    (s.snIR &&& SnIR_RECV ≠ 0 → rxHeadValue s = 2 →
      (receiveRawNet s max_len).ret = 0 ∧
      (receiveRawNet s max_len).copied = some [] ∧
      (receiveRawNet s max_len).newRX_RD = (s.snRX_RD + 2) % 65536 ∧
      (receiveRawNet s max_len).recvIssued = true) ∧
    ((receiveRawNet s max_len).ret ≠ 0 →
      ∃ l, (receiveRawNet s max_len).copied = some l
        ∧ l.length = (receiveRawNet s max_len).ret) := by
  refine ⟨?_, ?_, ?_, ?_⟩
  · intro h
    rw [recv_not_ready s max_len h]
    exact ⟨rfl, rfl⟩
  · intro h1 h2
    rw [recv_skip s max_len h1 h2]
    exact ⟨rfl, rfl⟩
  · intro h1 h2
    have hz : rxDataLen s = 0 := by
      unfold rxDataLen
      rw [h2]
    have hfit : rxDataLen s ≤ max_len := by omega
    rw [recv_copy s max_len h1 hfit, hz, h2]
    exact ⟨rfl, by simp [rxWindow], rfl, rfl⟩
  · intro hret
    by_cases h1 : s.snIR &&& SnIR_RECV = 0
    · rw [recv_not_ready s max_len h1] at hret
      simp at hret
    · by_cases h2 : rxDataLen s ≤ max_len
      · rw [recv_copy s max_len h1 h2]
        exact ⟨rxWindow s (rxDataLen s), rfl, rxWindow_length s _⟩
      · rw [recv_skip s max_len h1 (by omega)] at hret
        simp at hret

/-- Witness for c9_return_conflation at concrete states covering an idle
poll, an oversized skip, a zero-length frame and a copied frame. -/
theorem c9_return_conflation_witness :
    (receiveRawNet ⟨0, 7, fun _ => 3⟩ 5).ret = 0 ∧
    (receiveRawNet ⟨4, 0, fun i => if i = 0 then 7 else if i = 1 then 210 else 0⟩ 1522).ret = 0 ∧
    (receiveRawNet ⟨4, 0, fun i => if i = 0 then 0 else if i = 1 then 2 else 9⟩ 10).copied = some [] ∧
    (∃ l, (receiveRawNet ⟨4, 0, fun i => if i = 0 then 0 else if i = 1 then 5 else 9⟩ 10).copied = some l
       ∧ l.length = (receiveRawNet ⟨4, 0, fun i => if i = 0 then 0 else if i = 1 then 5 else 9⟩ 10).ret) :=
  ⟨((c9_return_conflation ⟨0, 7, fun _ => 3⟩ 5).1 (by decide)).1,
   ((c9_return_conflation ⟨4, 0, fun i => if i = 0 then 7 else if i = 1 then 210 else 0⟩ 1522).2.1
      (by decide) (by decide)).1,
   ((c9_return_conflation ⟨4, 0, fun i => if i = 0 then 0 else if i = 1 then 2 else 9⟩ 10).2.2.1
      (by decide) (by decide)).2.1,
   (c9_return_conflation ⟨4, 0, fun i => if i = 0 then 0 else if i = 1 then 5 else 9⟩ 10).2.2.2
      (by decide)⟩

/-- C8: joinMulticast records the given address as the multicast group and
leaves the bound MAC address and Ethertype unchanged; but instead of the
claimed true return the bool function falls off its end without a return
statement, so it returns no value at all (modelled as none). -/
theorem c8_join_multicast_records (s : RawSockWizState) (m : Eui48) :
    (joinMulticast s m).1.m_multicast = m ∧
    (joinMulticast s m).1.m_mac_address = s.m_mac_address ∧
    (joinMulticast s m).1.m_ethertype = s.m_ethertype ∧
    (joinMulticast s m).2 = none :=
  ⟨rfl, rfl, rfl, rfl⟩

/-- C10: clear() resets the header accumulation length, the payload octets
still expected and the error count to 0, so getErrorCount reports 0
immediately after clear(). -/
theorem c10_clear_resets (p : AppMessageParser) :
    p.clear.m_header_buffer.length = 0 ∧
    p.clear.m_octets_left_in_payload = 0 ∧
    p.clear.m_error_count = 0 ∧
    p.clear.getErrorCount = 0 :=
  ⟨rfl, rfl, rfl, rfl⟩

/-! Helper lemmas about the parser, shared by the round-trip and
resynchronization results. -/

/-- Feeding a concatenation is feeding the parts in sequence, concatenating
the message outputs. -/
theorem feedAll_append (p : AppMessageParser) (l1 l2 : List Nat) :
    feedAll p (l1 ++ l2)
      = ((feedAll (feedAll p l1).1 l2).1,
         (feedAll p l1).2 ++ (feedAll (feedAll p l1).1 l2).2) := by
  induction l1 generalizing p with
  | nil => simp [feedAll]
  | cons o rest ih => simp [feedAll, ih]

/-- One-step unfolding of feedAll on a cons, without recursive unfolding. -/
theorem feedAll_cons (p : AppMessageParser) (o : Nat) (rest : List Nat) :
    feedAll p (o :: rest)
      = ((feedAll (parse p o).1 rest).1,
         (parse p o).2.toList ++ (feedAll (parse p o).1 rest).2) := by
  simp only [feedAll]

/-- validateHeader never decreases the error count. -/
theorem validateHeader_error_mono (p : AppMessageParser) :
    p.m_error_count ≤ (validateHeader p).1.m_error_count := by
  unfold validateHeader
  dsimp only
  repeat' split
  all_goals simp

/-- Consuming one octet never decreases the error count. -/
theorem parse_error_mono (p : AppMessageParser) (o : Nat) :
    p.m_error_count ≤ (parse p o).1.m_error_count := by
  unfold parse
  split
  · unfold parsePayload
    dsimp only
    split <;> simp
  · unfold parseHeader
    dsimp only
    split
    · simp
    · exact validateHeader_error_mono
        { p with m_header_buffer := p.m_header_buffer ++ [o] }

/-- Feeding any octet list never decreases the error count. -/
theorem feedAll_error_mono (p : AppMessageParser) (l : List Nat) :
    p.m_error_count ≤ (feedAll p l).1.m_error_count := by
  induction l generalizing p with
  | nil => simp [feedAll]
  | cons o rest ih =>
    simp only [feedAll]
    exact le_trans (parse_error_mono p o) (ih _)

/-- If the error count is 0 after a whole stream, it is 0 after every
prefix of that stream. -/
theorem error_zero_take (p : AppMessageParser) (l : List Nat)
    (hend : (feedAll p l).1.m_error_count = 0) (k : Nat) :
    (feedAll p (l.take k)).1.m_error_count = 0 := by
  have hsplit := feedAll_append p (l.take k) (l.drop k)
  rw [List.take_append_drop] at hsplit
  have hmono := feedAll_error_mono (feedAll p (l.take k)).1 (l.drop k)
  have h1 : (feedAll p l).1 = (feedAll (feedAll p (l.take k)).1 (l.drop k)).1 := by
    rw [hsplit]
  rw [← h1, hend] at hmono
  omega

/-- Feeding exactly the expected number of payload octets appends them to the
in-progress message's payload and yields exactly that message on the final
octet, leaving the error count unchanged. -/
theorem feed_payload (l : List Nat) :
    ∀ p : AppMessageParser, p.m_octets_left_in_payload = l.length → l ≠ [] →
      (feedAll p l).2
          = [{ p.m_current_message with
               payload := p.m_current_message.payload ++ l }]
        ∧ (feedAll p l).1.m_error_count = p.m_error_count := by
  induction l with
  | nil =>
    intro p h hne
    exact absurd rfl hne
  | cons x tl ih =>
    intro p h hne
    cases tl with
    | nil =>
      have h1 : p.m_octets_left_in_payload = 1 := by simpa using h
      simp [feedAll, parse, parsePayload, h1]
    | cons y tl2 =>
      have hpos : p.m_octets_left_in_payload > 0 := by
        rw [h]
        simp
      have hne2 : ¬ (p.m_octets_left_in_payload - 1 = 0) := by
        rw [h]
        simp
      have hstep : parse p x
          = ({ p with
               m_octets_left_in_payload := p.m_octets_left_in_payload - 1,
               m_current_message :=
                 { p.m_current_message with
                   payload := p.m_current_message.payload ++ [x] } }, none) := by
        unfold parse parsePayload
        dsimp only
        rw [if_pos hpos, if_neg hne2]
      obtain ⟨h1, h2⟩ := ih
        { p with
          m_octets_left_in_payload := p.m_octets_left_in_payload - 1,
          m_current_message :=
            { p.m_current_message with
              payload := p.m_current_message.payload ++ [x] } }
        (by simp [h]) (by simp)
      rw [feedAll_cons, hstep]
      refine ⟨?_, ?_⟩
      · dsimp only
        dsimp only at h1
        rw [h1]
        simp [List.append_assoc]
      · dsimp only
        dsimp only at h2
        rw [h2]

/-- Recombining the big-endian split of a 16-bit length. -/
theorem decode_len (n : Nat) : n / 256 * 256 + n % 256 = n := by
  omega

/-- A header built with version 0, a recognized message type and an in-range
payload length passes the validateHeader field checks. -/
theorem headerFieldsOk_of (mt pl : Nat) (hmt : validMessageType mt = true)
    (hpl : pl ≤ appduMaxPayloadLength) :
    headerFieldsOk 0 mt (pl / 256) (pl % 256) = true := by
  unfold headerFieldsOk
  simp [hmt, decode_len, hpl]

/-- Feeding the 12 octets of a header that passes validation, starting from
an empty header buffer: the parser accepts, primes the in-progress message
from the header fields, expects the decoded payload length, keeps the error
count, and yields the message at once exactly when the payload is empty. -/
theorem feed_header_accept (ec : Nat) (cm : AppMessage)
    (mt hi lo a0 a1 a2 a3 a4 a5 : Nat)
    (hOk : headerFieldsOk 0 mt hi lo = true) :
    feedAll (baseParser ec cm) [0, mt, hi, lo, a0, a1, a2, a3, a4, a5, 0, 0]
      = ({ m_octets_left_in_payload := hi * 256 + lo, m_error_count := ec,
           m_header_buffer := [],
           m_current_message :=
             { version := 0, message_type := mt, payload_length := hi * 256 + lo,
               address := [a0, a1, a2, a3, a4, a5], reserved := [0, 0], payload := [] } },
         if hi * 256 + lo = 0 then
           [{ version := 0, message_type := mt, payload_length := hi * 256 + lo,
              address := [a0, a1, a2, a3, a4, a5], reserved := [0, 0], payload := [] }]
         else []) := by
  by_cases hpl : hi * 256 + lo = 0
  · simp [feedAll, parse, parsePayload, parseHeader, validateHeader, baseParser,
          appduHeaderLen, hOk, hpl]
  · simp [feedAll, parse, parsePayload, parseHeader, validateHeader, baseParser,
          appduHeaderLen, hOk, hpl]

/-- Feeding a well-formed serialized stream (12-octet header with version 0,
a recognized message type, zero reserved octets and an in-range big-endian
payload length, followed by exactly that many payload octets) from a
HEADER-phase parser with empty buffer yields exactly the corresponding
message and leaves the error count unchanged. -/
theorem roundtrip_aux (mt : Nat) (addr pay : List Nat) (ec : Nat) (cm : AppMessage)
    (hmt : validMessageType mt = true)
    (haddr : addr.length = 6)
    (hpl : pay.length ≤ appduMaxPayloadLength) :
    (feedAll (baseParser ec cm)
        ([0, mt, pay.length / 256, pay.length % 256] ++ addr ++ [0, 0] ++ pay)).2
      = [{ version := 0, message_type := mt, payload_length := pay.length,
           address := addr, reserved := [0, 0], payload := pay }]
    ∧ (feedAll (baseParser ec cm)
        ([0, mt, pay.length / 256, pay.length % 256] ++ addr ++ [0, 0] ++ pay)).1.m_error_count
      = ec := by
  rcases addr with _ | ⟨b0, addr⟩
  · simp at haddr
  rcases addr with _ | ⟨b1, addr⟩
  · simp at haddr
  rcases addr with _ | ⟨b2, addr⟩
  · simp at haddr
  rcases addr with _ | ⟨b3, addr⟩
  · simp at haddr
  rcases addr with _ | ⟨b4, addr⟩
  · simp at haddr
  rcases addr with _ | ⟨b5, addr⟩
  · simp at haddr
  have haddr2 : addr = [] := by
    simpa using haddr
  subst haddr2
  have hOk := headerFieldsOk_of mt pay.length hmt hpl
  have hsplit : ([0, mt, pay.length / 256, pay.length % 256]
        ++ [b0, b1, b2, b3, b4, b5] ++ [0, 0] ++ pay)
      = [0, mt, pay.length / 256, pay.length % 256,
         b0, b1, b2, b3, b4, b5, 0, 0] ++ pay := by
    simp
  rw [hsplit, feedAll_append, feed_header_accept ec cm mt _ _ b0 b1 b2 b3 b4 b5 hOk,
      decode_len]
  cases pay with
  | nil => simp [feedAll]
  | cons c cs =>
    have hlen0 : ¬ ((c :: cs).length = 0) := by simp
    obtain ⟨h1, h2⟩ := feed_payload (c :: cs)
      { m_octets_left_in_payload := (c :: cs).length, m_error_count := ec,
        m_header_buffer := [],
        m_current_message :=
          { version := 0, message_type := mt, payload_length := (c :: cs).length,
            address := [b0, b1, b2, b3, b4, b5], reserved := [0, 0], payload := [] } }
      rfl (by simp)
    dsimp only
    rw [if_neg hlen0]
    dsimp only at h1 h2
    constructor
    · rw [List.nil_append, h1]
      simp
    · rw [h2]

/-- Any validly constructed message round-trips through the parser from any
HEADER-phase parser with empty buffer, preserving the error count. -/
theorem roundtrip_valid (ec : Nat) (cm : AppMessage) (m : AppMessage)
    (hm : ValidlyConstructed m) :
    (feedAll (baseParser ec cm) (serialize m)).2 = [m]
    ∧ (feedAll (baseParser ec cm) (serialize m)).1.m_error_count = ec := by
  rcases hm with rfl | ⟨mac, eid, hmac, heid, rfl⟩ | ⟨mac, eid, hmac, heid, rfl⟩ |
    ⟨mac, hmac, rfl⟩ | ⟨mac, hmac, rfl⟩ | ⟨f, hf, hfl, rfl⟩ | ⟨f, hf, hfl, rfl⟩ |
    ⟨vmt, pay, hv, hpay, hplen, rfl⟩
  · have := roundtrip_aux 0 [0, 0, 0, 0, 0, 0] [] ec cm (by decide) (by decide) (by decide)
    simp only [List.length_nil] at this
    norm_num at this
    simp only [serialize, AppMessage.setNOP]
    norm_num
    apply this
  · have := roundtrip_aux 1 mac.toList eid.toList ec cm (by decide)
      (by simp [Eui48.toList]) (by simp [Eui64.toList, appduMaxPayloadLength])
    simp only [Eui48.toList, Eui64.toList, List.length_cons, List.length_nil] at this
    norm_num at this
    simp only [serialize, AppMessage.setEntityIdRequest, Eui48.toList, Eui64.toList]
    norm_num
    apply this
  · have := roundtrip_aux 2 mac.toList eid.toList ec cm (by decide)
      (by simp [Eui48.toList]) (by simp [Eui64.toList, appduMaxPayloadLength])
    simp only [Eui48.toList, Eui64.toList, List.length_cons, List.length_nil] at this
    norm_num at this
    simp only [serialize, AppMessage.setEntityIdResponse, Eui48.toList, Eui64.toList]
    norm_num
    apply this
  · have := roundtrip_aux 3 mac.toList [] ec cm (by decide)
      (by simp [Eui48.toList]) (by decide)
    simp only [Eui48.toList, List.length_nil] at this
    norm_num at this
    simp only [serialize, AppMessage.setLinkUp, Eui48.toList]
    norm_num
    apply this
  · have := roundtrip_aux 4 mac.toList [] ec cm (by decide)
      (by simp [Eui48.toList]) (by decide)
    simp only [Eui48.toList, List.length_nil] at this
    norm_num at this
    simp only [serialize, AppMessage.setLinkDown, Eui48.toList]
    norm_num
    apply this
  · have := roundtrip_aux 5 [0, 0, 0, 0, 0, 0] f ec cm (by decide) (by decide) hfl
    simp only [serialize, AppMessage.setAvdeccFromAps]
    apply this
  · have := roundtrip_aux 6 [0, 0, 0, 0, 0, 0] f ec cm (by decide) (by decide) hfl
    simp only [serialize, AppMessage.setAvdeccFromApc]
    apply this
  · have := roundtrip_aux 255 vmt.toList pay ec cm (by decide)
      (by simp [Eui48.toList]) hplen
    simp only [serialize, AppMessage.setVendor, Eui48.toList]
    apply this

/-- C1: for every validly constructed AppMessage m, feeding serialize(m)
octet by octet into a freshly cleared parser yields exactly one completed
message equal to m, and the error count is zero after every prefix of the
stream (in particular it remains zero throughout). -/
theorem c1_roundtrip (p : AppMessageParser) (m : AppMessage)
    (hm : ValidlyConstructed m) :
    (feedAll p.clear (serialize m)).2 = [m]
    ∧ ∀ k, (feedAll p.clear ((serialize m).take k)).1.m_error_count = 0 := by
  have hcl : p.clear = baseParser 0 p.m_current_message := rfl
  have main := roundtrip_valid 0 p.m_current_message m hm
  rw [hcl]
  exact ⟨main.1, fun k => error_zero_take _ _ main.2 k⟩

/-- Witness for c1_roundtrip: the NOP message round-trips from a fresh
parser. -/
theorem c1_roundtrip_witness :
    ValidlyConstructed AppMessage.setNOP ∧
    (feedAll (AppMessageParser.clear ⟨0, 0, [], AppMessage.setNOP⟩)
        (serialize AppMessage.setNOP)).2 = [AppMessage.setNOP] :=
  ⟨Or.inl rfl,
   (c1_roundtrip ⟨0, 0, [], AppMessage.setNOP⟩ AppMessage.setNOP (Or.inl rfl)).1⟩

set_option maxHeartbeats 1000000 in
/-- Feeding a stream whose first 12 octets are a rejected header, from a
HEADER-phase parser with empty buffer, is exactly feeding the stream with
its first octet discarded and one more counted error: the one-octet-shift
resynchronization step. -/
theorem shift_reject (s : List Nat) (ec : Nat) (cm : AppMessage)
    (hlen : 12 ≤ s.length) (hrej : headerOk (s.take 12) = false) :
    feedAll (baseParser ec cm) s = feedAll (baseParser (ec + 1) cm) s.tail := by
  rcases s with _ | ⟨x0, s⟩
  · simp at hlen
  rcases s with _ | ⟨x1, s⟩
  · simp at hlen
  rcases s with _ | ⟨x2, s⟩
  · simp at hlen
  rcases s with _ | ⟨x3, s⟩
  · simp at hlen
  rcases s with _ | ⟨x4, s⟩
  · simp at hlen
  rcases s with _ | ⟨x5, s⟩
  · simp at hlen
  rcases s with _ | ⟨x6, s⟩
  · simp at hlen
  rcases s with _ | ⟨x7, s⟩
  · simp at hlen
  rcases s with _ | ⟨x8, s⟩
  · simp at hlen
  rcases s with _ | ⟨x9, s⟩
  · simp at hlen
  rcases s with _ | ⟨x10, s⟩
  · simp at hlen
  rcases s with _ | ⟨x11, s⟩
  · simp at hlen
  simp only [List.take_succ_cons, List.take_zero, headerOk] at hrej
  simp [feedAll, parse, parsePayload, parseHeader, validateHeader, baseParser,
        appduHeaderLen, hrej]

/-- When every 12-octet window starting inside the garbage prefix g is a
rejected header, feeding g discards it octet by octet, counting one error
per octet, and leaves the parser exactly where it would be on the rest of
the stream alone. -/
theorem lockon_aux (g : List Nat) :
    ∀ (rest : List Nat) (ec : Nat) (cm : AppMessage), 12 ≤ rest.length →
      (∀ i, i < g.length → headerOk (((g ++ rest).drop i).take 12) = false) →
      feedAll (baseParser ec cm) (g ++ rest)
        = feedAll (baseParser (ec + g.length) cm) rest := by
  induction g with
  | nil =>
    intro rest ec cm hr hw
    simp
  | cons x g' ih =>
    intro rest ec cm hr hw
    have hlen : 12 ≤ (x :: (g' ++ rest)).length := by
      simp
      omega
    have h0 : headerOk ((x :: (g' ++ rest)).take 12) = false := by
      have := hw 0 (by simp)
      simpa using this
    have hstep := shift_reject (x :: (g' ++ rest)) ec cm hlen h0
    rw [List.cons_append, hstep, List.tail_cons]
    have ih2 := ih rest (ec + 1) cm hr (fun i hi => by
      have := hw (i + 1) (by simp; omega)
      simpa [List.drop_succ_cons] using this)
    rw [ih2]
    have harith : ec + 1 + g'.length = ec + (x :: g').length := by
      simp
      omega
    rw [harith]

/-- Every validly constructed message serializes to at least the 12 header
octets. -/
theorem serialize_length_valid (m : AppMessage) (hm : ValidlyConstructed m) :
    12 ≤ (serialize m).length := by
  rcases hm with rfl | ⟨mac, eid, hmac, heid, rfl⟩ | ⟨mac, eid, hmac, heid, rfl⟩ |
    ⟨mac, hmac, rfl⟩ | ⟨mac, hmac, rfl⟩ | ⟨f, hf, hfl, rfl⟩ | ⟨f, hf, hfl, rfl⟩ |
    ⟨vmt, pay, hv, hpay, hplen, rfl⟩ <;>
    simp [serialize, AppMessage.setNOP, AppMessage.setEntityIdRequest,
          AppMessage.setEntityIdResponse, AppMessage.setLinkUp, AppMessage.setLinkDown,
          AppMessage.setAvdeccFromAps, AppMessage.setAvdeccFromApc, AppMessage.setVendor,
          Eui48.toList, Eui64.toList]

/-- On the 12th header octet, a rejected header makes parse discard exactly
the first buffered octet, shift the rest left, count one error, and stay in
HEADER phase. -/
theorem parse_reject_one (p : AppMessageParser) (o : Nat)
    (hleft : p.m_octets_left_in_payload = 0)
    (hlen : p.m_header_buffer.length = 11)
    (hrej : headerOk (p.m_header_buffer ++ [o]) = false) :
    parse p o = ({ p with m_header_buffer := (p.m_header_buffer ++ [o]).tail,
                          m_error_count := p.m_error_count + 1 }, none) := by
  obtain ⟨pleft, pec, phb, pcm⟩ := p
  dsimp only at hleft hlen hrej ⊢
  subst hleft
  rcases phb with _ | ⟨y0, phb⟩
  · simp at hlen
  rcases phb with _ | ⟨y1, phb⟩
  · simp at hlen
  rcases phb with _ | ⟨y2, phb⟩
  · simp at hlen
  rcases phb with _ | ⟨y3, phb⟩
  · simp at hlen
  rcases phb with _ | ⟨y4, phb⟩
  · simp at hlen
  rcases phb with _ | ⟨y5, phb⟩
  · simp at hlen
  rcases phb with _ | ⟨y6, phb⟩
  · simp at hlen
  rcases phb with _ | ⟨y7, phb⟩
  · simp at hlen
  rcases phb with _ | ⟨y8, phb⟩
  · simp at hlen
  rcases phb with _ | ⟨y9, phb⟩
  · simp at hlen
  rcases phb with _ | ⟨y10, phb⟩
  · simp at hlen
  have hnil : phb = [] := by simpa using hlen
  subst hnil
  simp only [List.cons_append, List.nil_append, headerOk] at hrej
  simp [parse, parseHeader, validateHeader, appduHeaderLen, hrej]

/-- C6 counterexample: the claim's final consequence ("a valid message
beginning at any offset in the stream is eventually parsed") fails: a
12-octet garbage prefix that itself forms an accepted header with
payload_length 12 swallows the following serialized NOP message as its
payload, so the valid NOP beginning at offset 12 is never parsed. -/
theorem c6_any_offset_counterexample :
    ValidlyConstructed AppMessage.setNOP ∧
    (feedAll (baseParser 0 AppMessage.setNOP)
        ([0, 0, 0, 12, 0, 0, 0, 0, 0, 0, 0, 0] ++ serialize AppMessage.setNOP)).2
      = [{ version := 0, message_type := 0, payload_length := 12,
           address := [0, 0, 0, 0, 0, 0], reserved := [0, 0],
           payload := [0, 0, 0, 0, 0, 0, 0, 0, 0, 0, 0, 0] }] ∧
    AppMessage.setNOP ∉
      (feedAll (baseParser 0 AppMessage.setNOP)
        ([0, 0, 0, 12, 0, 0, 0, 0, 0, 0, 0, 0] ++ serialize AppMessage.setNOP)).2 := by
  refine ⟨Or.inl rfl, by decide, by decide⟩

/-- C6 (amended): whenever header validation rejects an accumulated 12-octet
header, the parser discards exactly one octet (the first of the header
buffer, shifting the rest left), increments error_count by one, and stays in
HEADER phase; consequently a validly-constructed message beginning at offset
k of the stream is parsed, with exactly one error counted per garbage octet,
provided no 12-octet window starting at an earlier offset forms an accepted
header. -/
theorem c6_resync_amended :
    (∀ (p : AppMessageParser) (o : Nat),
        p.m_octets_left_in_payload = 0 →
        p.m_header_buffer.length = 11 →
        headerOk (p.m_header_buffer ++ [o]) = false →
        parse p o = ({ p with m_header_buffer := (p.m_header_buffer ++ [o]).tail,
                              m_error_count := p.m_error_count + 1 }, none)) ∧
    (∀ (g : List Nat) (m : AppMessage) (p : AppMessageParser),
        ValidlyConstructed m →
        (∀ i, i < g.length → headerOk (((g ++ serialize m).drop i).take 12) = false) →
        (feedAll p.clear (g ++ serialize m)).2 = [m]
        ∧ (feedAll p.clear (g ++ serialize m)).1.m_error_count = g.length) := by
  constructor
  · exact parse_reject_one
  · intro g m p hm hw
    have hcl : p.clear = baseParser 0 p.m_current_message := rfl
    rw [hcl, lockon_aux g (serialize m) 0 p.m_current_message
          (serialize_length_valid m hm) hw]
    have := roundtrip_valid (0 + g.length) p.m_current_message m hm
    simpa using this

/-- Witness for c6_resync_amended: a version-1 header is rejected with a
one-octet shift, and scenario S4 (two 0xFF garbage octets before a NOP)
yields exactly the NOP with error_count 2. -/
theorem c6_resync_amended_witness :
    parse ⟨0, 0, [1, 0, 0, 0, 0, 0, 0, 0, 0, 0, 0], AppMessage.setNOP⟩ 0
      = (⟨0, 1, [0, 0, 0, 0, 0, 0, 0, 0, 0, 0, 0], AppMessage.setNOP⟩, none) ∧
    (feedAll (AppMessageParser.clear ⟨0, 0, [], AppMessage.setNOP⟩)
        ([255, 255] ++ serialize AppMessage.setNOP)).2 = [AppMessage.setNOP] ∧
    (feedAll (AppMessageParser.clear ⟨0, 0, [], AppMessage.setNOP⟩)
        ([255, 255] ++ serialize AppMessage.setNOP)).1.m_error_count = 2 := by
  refine ⟨?_, ?_, ?_⟩
  · have := c6_resync_amended.1 ⟨0, 0, [1, 0, 0, 0, 0, 0, 0, 0, 0, 0, 0], AppMessage.setNOP⟩
      0 rfl rfl (by decide)
    simpa using this
  · exact (c6_resync_amended.2 [255, 255] AppMessage.setNOP
      ⟨0, 0, [], AppMessage.setNOP⟩ (Or.inl rfl) (by decide)).1
  · have := (c6_resync_amended.2 [255, 255] AppMessage.setNOP
      ⟨0, 0, [], AppMessage.setNOP⟩ (Or.inl rfl) (by decide)).2
    simpa using this
